import Mathlib

/-!
Verification of the candidate-search / manual-load component of the ha-ezbeq
integration (`custom_components/ezbeq/manual_load.py`, `services.py`,
`select.py`, `switch.py`).

The Python code is shallowly embedded: dictionaries become structures,
`str | None` becomes `Option String`, JSON values that may be a string, a
list of strings or absent become the `StrOrList` type, and the stateful
service handlers become pure functions from an environment and a session
state to an event trace, a new session state and an outcome.  Wall-clock
timestamps (`last_updated` attributes) and log lines are elided from the
event trace; they carry no information any claim refers to.
-/

/-! ## Python string primitives -/

/-- `str.strip()` on the character list: drop whitespace from both ends. -/
def pyStripL (l : List Char) : List Char :=
  ((l.dropWhile Char.isWhitespace).reverse.dropWhile Char.isWhitespace).reverse

/-- Python `str.strip()`. -/
def pyStrip (s : String) : String := ⟨pyStripL s.data⟩

/-- Python `str.lower()` (per-character lowering). -/
def pyLower (s : String) : String := ⟨s.data.map Char.toLower⟩

/-- `_normalize` (manual_load.py line 41): `(value or "").strip().lower()`
applied to an already-present string. -/
def pyNormalize (s : String) : String := pyLower (pyStrip s)

/-- Python `t.startswith(p)`. -/
def pyStarts (t p : String) : Bool := p.data.isPrefixOf t.data

/-- Python `c in text` for a single-character needle `c`. -/
def hasChar (s : String) (c : Char) : Bool := decide (c ∈ s.data)

/-! ## The `csv.reader` model

`_parse_values` (manual_load.py lines 101-115) feeds the trimmed input text
to `csv.reader(StringIO(text), delimiter=d, quotechar='"',
skipinitialspace=True)` and collects the stripped, non-empty cells of all
rows in order.  The reader is modelled as a character-level state machine
with the states of CPython's `_csv` parser (doublequote on, strict off):
a quoted field starts at a `"` found at field start (after skipped spaces),
`""` inside a quoted field is a literal quote, text after a closing quote
is appended literally, and newline characters end a record unless quoted.
An unquoted carriage return enters the `eatCrnl` state, in which further
carriage returns are consumed, a line feed returns to record start and the
end of input is accepted, but any other character makes `csv.reader` raise
`csv.Error` ("new-line character seen in unquoted field"); the machine
returns `none` for that raise, which `_parse_values` does not catch. -/

inductive CsvSt where
  | startRec   -- start of a record
  | startFld   -- start of a field (after a delimiter / skipped spaces)
  | inFld      -- inside an unquoted field
  | inQ        -- inside a quoted field
  | quoteInQ   -- just saw a quote inside a quoted field
  | eatCrnl    -- consuming the remainder of a newline sequence
deriving DecidableEq, Repr

/-- Flush at end of input: any in-progress field/record is emitted. -/
def csvEnd (st : CsvSt) (fld : List Char) (row : List String) (rows : List (List String)) :
    List (List String) :=
  match st with
  | .startRec => rows
  | .eatCrnl => rows
  | _ => rows ++ [row ++ [⟨fld⟩]]

/-- One run of the csv reader over the remaining characters; `none` models
a raised `csv.Error`. -/
def csvRun (d : Char) : List Char → CsvSt → List Char → List String →
    List (List String) → Option (List (List String))
  | [], st, fld, row, rows => some (csvEnd st fld row rows)
  | c :: cs, st, fld, row, rows =>
    match st with
    | .startRec =>
      if c = '\n' then csvRun d cs .startRec [] [] (rows ++ [[]])
      else if c = '\r' then csvRun d cs .eatCrnl [] [] (rows ++ [[]])
      else if c = '"' then csvRun d cs .inQ fld row rows
      else if c = ' ' then csvRun d cs .startFld fld row rows
      else if c = d then csvRun d cs .startFld [] (row ++ [⟨fld⟩]) rows
      else csvRun d cs .inFld (fld ++ [c]) row rows
    | .startFld =>
      if c = '\n' then csvRun d cs .startRec [] [] (rows ++ [row ++ [⟨fld⟩]])
      else if c = '\r' then csvRun d cs .eatCrnl [] [] (rows ++ [row ++ [⟨fld⟩]])
      else if c = '"' then csvRun d cs .inQ fld row rows
      else if c = ' ' then csvRun d cs .startFld fld row rows
      else if c = d then csvRun d cs .startFld [] (row ++ [⟨fld⟩]) rows
      else csvRun d cs .inFld (fld ++ [c]) row rows
    | .inFld =>
      if c = '\n' then csvRun d cs .startRec [] [] (rows ++ [row ++ [⟨fld⟩]])
      else if c = '\r' then csvRun d cs .eatCrnl [] [] (rows ++ [row ++ [⟨fld⟩]])
      else if c = d then csvRun d cs .startFld [] (row ++ [⟨fld⟩]) rows
      else csvRun d cs .inFld (fld ++ [c]) row rows
    | .inQ =>
      if c = '"' then csvRun d cs .quoteInQ fld row rows
      else csvRun d cs .inQ (fld ++ [c]) row rows
    | .quoteInQ =>
      if c = '"' then csvRun d cs .inQ (fld ++ [c]) row rows
      else if c = d then csvRun d cs .startFld [] (row ++ [⟨fld⟩]) rows
      else if c = '\n' then csvRun d cs .startRec [] [] (rows ++ [row ++ [⟨fld⟩]])
      else if c = '\r' then csvRun d cs .eatCrnl [] [] (rows ++ [row ++ [⟨fld⟩]])
      else csvRun d cs .inFld (fld ++ [c]) row rows
    | .eatCrnl =>
      if c = '\r' then csvRun d cs .eatCrnl fld row rows
      else if c = '\n' then csvRun d cs .startRec fld row rows
      else none

/-- All rows produced by `csv.reader` on `text` with delimiter `d`
(`none` = `csv.Error` raised). -/
def csvRows (d : Char) (text : String) : Option (List (List String)) :=
  csvRun d text.data .startRec [] [] []

/-- The `for row in reader: for cell in row: ...` collection loop of
`_parse_values`: flatten rows, strip each cell, keep non-empty cells; the
raise of the underlying reader propagates. -/
def csv_split_values (d : Char) (text : String) : Option (List String) :=
  (csvRows d text).map (fun rs => (rs.flatten.map pyStrip).filter (fun s => s ≠ ""))

/-- `_parse_values` (manual_load.py lines 101-115).  The argument models
the Python `str | None` parameter; the result `none` models an uncaught
`csv.Error` raised by the reader. -/
def parse_values_res (raw : Option String) : Option (List String) :=
  match raw with
  | none => some []
  | some r =>
    if r = "" then some []
    else
      let text := pyStrip r
      if text = "" then some []
      else
        let d := if hasChar text ';' && !hasChar text ',' then ';' else ','
        csv_split_values d text

/-- The value `_parse_values` computes on the executions where the csv
parse does not raise, totalized with `[]` on the raise path.  The
value-level definitions below (`as_list_strict`, `find_candidates`) model
only non-raising executions; the raise path of the search handler is
carried by `find_candidates_run`. -/
def parse_values (raw : Option String) : List String :=
  (parse_values_res raw).getD []

/-- Does `_parse_values` raise `csv.Error` on this input? -/
def parse_raises (raw : Option String) : Bool :=
  (parse_values_res raw).isNone

/-! ## JSON-ish values that may be a string, a list of strings, or absent -/

inductive StrOrList where
  | absent
  | str (s : String)
  | list (l : List String)
deriving DecidableEq, Repr

/-- Python truthiness of such a value (`None`/`""`/`[]` are falsy). -/
def strOrList_truthy : StrOrList → Bool
  | .absent => false
  | .str s => s ≠ ""
  | .list l => !l.isEmpty

/-- `_as_list` (manual_load.py lines 50-58). -/
def as_list : StrOrList → List String
  | .absent => []
  | .str s => [s]
  | .list l => l

/-- `_as_list_strict` (manual_load.py lines 61-70). -/
def as_list_strict : StrOrList → List String
  | .absent => []
  | .list l => (l.map pyStrip).filter (fun s => s ≠ "")
  | .str s =>
    let parsed := parse_values (some s)
    if parsed ≠ [] then parsed
    else if pyStrip s ≠ "" then [pyStrip s] else []

/-! ## The catalogue data model

`CatalogItem` is a JSON dictionary in the source; only the keys the code
reads are modelled.  `theMovieDB` is read through `str(...)`, so its model
holds the `str()` form with `""` for an absent key; `title`, `year` and the
other scalar keys are read through `item.get(key, default)` with differing
defaults, so they are modelled as `Option String` (`year` holds the `str()`
form used by the label's f-string). -/

structure Item where
  theMovieDB : String
  title : Option String
  altTitle : Option String
  year : Option String
  edition : Option String
  audioTypes : StrOrList
  author : StrOrList
  authors : StrOrList
  genres : StrOrList
  genre : StrOrList
  images : StrOrList
  mv : Option String
  warning : Option String
  note : Option String
  source : Option String
  content_type : Option String
  language : Option String
deriving DecidableEq, Repr

/-- The author component of `_candidate_key` (manual_load.py line 80):
the `author` value itself if it is a string, otherwise
`",".join(item.get("author", []) or [])`. -/
def author_key_str (item : Item) : String :=
  match item.author with
  | .str s => s
  | .list l => String.intercalate (",") l
  | .absent => ""

/-- `_candidate_key` (manual_load.py lines 73-83). -/
def candidate_key (item : Item) (aud : String) : String :=
  String.intercalate ("|")
    [pyStrip item.theMovieDB, pyStrip (item.title.getD ""),
     pyStrip (item.edition.getD ""), pyStrip aud, author_key_str item]

/-- `_first_image` (manual_load.py lines 85-91). -/
def first_image (item : Item) : Option String × Option String :=
  match as_list item.images with
  | [] => (none, none)
  | [x] => (some x, none)
  | x :: y :: _ => (some x, some y)

/-- The display author of `add_item` (manual_load.py lines 218-220):
`item.get("author") or item.get("authors") or ""`, a list joined with
`", "` dropping falsy entries. -/
def author_display (item : Item) : String :=
  match (if strOrList_truthy item.author then item.author
         else if strOrList_truthy item.authors then item.authors else .str "") with
  | .str s => s
  | .list l => String.intercalate (", ") (l.filter (fun a => a ≠ ""))
  | .absent => ""

/-- `edition_raw` of `add_item` (line 209): `item.get("edition", "") or ""`. -/
def edition_raw_of (item : Item) : String := item.edition.getD ""

/-- `edition_display` of `add_item` (line 210). -/
def edition_display_of (item : Item) : String :=
  if edition_raw_of item = "" then "—" else edition_raw_of item

/-- `audio_types_list` of `add_item` (lines 201-203): the strict list form
of `audioTypes`, replaced by `[""]` when empty. -/
def audio_types_of (item : Item) : List String :=
  let l := as_list_strict item.audioTypes
  if l = [] then [""] else l

/-- `genres_list` of `add_item` (line 206):
`_as_list_strict(item.get("genres") or item.get("genre"))`. -/
def genres_list_of (item : Item) : List String :=
  as_list_strict (if strOrList_truthy item.genres then item.genres else item.genre)

/-- `f"... • {audio or 'Unknown'} • ..."` fragment of the label. -/
def audio_or_unknown (aud : String) : String := if aud = "" then "Unknown" else aud

/-- `{author or 'n/a'}` fragment of the label. -/
def author_or_na (item : Item) : String :=
  if author_display item = "" then "n/a" else author_display item

/-- The candidate label f-string (manual_load.py line 224). -/
def cand_label (item : Item) (aud : String) : String :=
  item.title.getD "?" ++ " (" ++ item.year.getD "?" ++ ") • " ++ edition_display_of item
    ++ " • " ++ audio_or_unknown aud ++ (" • " ++ author_or_na item)

/-- The candidate dictionary built by `add_item` (lines 221-246). -/
structure Candidate where
  key : String
  label : String
  tmdb_id : String
  title : String
  alt_title : String
  year : Option String
  edition : String
  edition_display : String
  audio_type : String
  audio_types : List String
  audio_types_text : String
  author : String
  mv : Option String
  warning : String
  note : String
  image1 : Option String
  image2 : Option String
  source : String
  content_type : String
  language : String
  genres : List String
  genres_text : String
deriving DecidableEq, Repr

/-- One candidate row of `add_item` for audio-track type `aud`. -/
def mk_candidate (item : Item) (aud : String) : Candidate :=
  { key := candidate_key item aud
    label := cand_label item aud
    tmdb_id := item.theMovieDB
    title := item.title.getD ""
    alt_title := item.altTitle.getD ""
    year := item.year
    edition := edition_raw_of item
    edition_display := edition_display_of item
    audio_type := aud
    audio_types := audio_types_of item
    audio_types_text := String.intercalate (", ") (audio_types_of item)
    author := author_display item
    mv := item.mv
    warning := item.warning.getD ""
    note := item.note.getD ""
    image1 := (first_image item).1
    image2 := (first_image item).2
    source := item.source.getD ""
    content_type := item.content_type.getD ""
    language := item.language.getD ""
    genres := genres_list_of item
    genres_text := String.intercalate (", ") (genres_list_of item) }

/-! ## `_build_candidates` (manual_load.py lines 188-262) -/

/-- `DEFAULT_LIMIT` (manual_load.py line 29). -/
def DEFAULT_LIMIT : Nat := 10

/-- The normalized ID set `tmdb_ids_norm` (line 194); only membership and
emptiness of the Python set are used, so a list models it. -/
def norm_ids (tmdb_ids : List String) : List String :=
  (tmdb_ids.map pyStrip).filter (fun s => s ≠ "")

/-- The normalized title-prefix list `prefixes_norm` (line 195). -/
def norm_prefs (title_prefixes : List String) : List String :=
  (title_prefixes.filter (fun p => pyStrip p ≠ "")).map pyNormalize

/-- `_starts_with_any` (manual_load.py lines 45-47). -/
def starts_with_any (text : String) (ps : List String) : Bool :=
  ps.any (fun p => p ≠ "" && pyStarts (pyNormalize text) (pyNormalize p))

/-- The prefix-pass match test (lines 257-259): title or alternate title
starts with one of the normalized prefixes. -/
def prefix_match (ps : List String) (item : Item) : Bool :=
  starts_with_any (item.title.getD "") ps || starts_with_any (item.altTitle.getD "") ps

/-- The ID-pass match test (line 250). -/
def id_pred (idsN : List String) (item : Item) : Bool :=
  decide (pyStrip item.theMovieDB ∈ idsN)

/-- `add_item` (lines 200-246): expand one item into one candidate per
audio-track type, skipping keys already in `seen_keys` and appending the
rest to `results`.  The state is the pair (seen keys, results). -/
def add_item (item : Item) (st : List String × List Candidate) :
    List String × List Candidate :=
  (audio_types_of item).foldl
    (fun st aud =>
      if candidate_key item aud ∈ st.1 then st
      else (candidate_key item aud :: st.1, st.2 ++ [mk_candidate item aud])) st

/-- One step of a pass: process `item` when the pass predicate holds. -/
def sel_step (p : Item → Bool) (st : List String × List Candidate) (item : Item) :
    List String × List Candidate :=
  if p item then add_item item st else st

/-- The prefix pass loop (lines 254-260) with its
`if len(results) >= limit: break`. -/
def pfx_loop (ps : List String) (limit : Nat) :
    List Item → List String × List Candidate → List String × List Candidate
  | [], st => st
  | item :: rest, st =>
    if limit ≤ st.2.length then st
    else pfx_loop ps limit rest (sel_step (prefix_match ps) st item)

/-- `_build_candidates` (lines 188-262). -/
def build_candidates (items : List Item) (tmdb_ids : List String)
    (title_prefixes : List String) (limit : Nat) : List Candidate :=
  let idsN := norm_ids tmdb_ids
  let prefsN := norm_prefs title_prefixes
  let st1 := if idsN = [] then ([], [])
             else items.foldl (sel_step (id_pred idsN)) ([], [])
  let st2 := if prefsN ≠ [] ∧ st1.2.length < limit then pfx_loop prefsN limit items st1
             else st1
  st2.2.take limit

/-! ## Verification-side characterizations of the builder -/

/-- One dedup step: append the candidate unless its key was seen. -/
def dedupStep (st : List String × List Candidate) (c : Candidate) :
    List String × List Candidate :=
  if c.key ∈ st.1 then st else (c.key :: st.1, st.2 ++ [c])

/-- First-occurrence deduplication by key, given already-seen keys. -/
def dedupAux (seen : List String) : List Candidate → List Candidate
  | [] => []
  | c :: r => if c.key ∈ seen then dedupAux seen r else c :: dedupAux (c.key :: seen) r

/-- The seen-key set after scanning a candidate list. -/
def seenAux (seen : List String) : List Candidate → List String
  | [] => seen
  | c :: r => if c.key ∈ seen then seenAux seen r else seenAux (c.key :: seen) r

/-- First-occurrence deduplication by key. -/
def firstDedup (l : List Candidate) : List Candidate := dedupAux [] l

/-- The full, un-deduplicated expansion of one item in audio-list order. -/
def expand_raw (item : Item) : List Candidate :=
  (audio_types_of item).map (mk_candidate item)

/-- The ID pass's scan sequence: every ID-matched item, in catalogue order,
each expanded in audio-list order (empty when the normalized ID set is). -/
def raw_id_pass (items : List Item) (idsN : List String) : List Candidate :=
  if idsN = [] then [] else (items.filter (id_pred idsN)).flatMap expand_raw

/-- The prefix pass's scan sequence, disregarding the limit break. -/
def raw_pfx_pass (items : List Item) (prefsN : List String) : List Candidate :=
  if prefsN = [] then [] else (items.filter (prefix_match prefsN)).flatMap expand_raw

/-- Does this candidate's catalogue ID (as the builder compares it) belong
to the normalized ID set? -/
def cand_id_matched (idsN : List String) (c : Candidate) : Bool :=
  decide (pyStrip c.tmdb_id ∈ idsN)

/-! ## The workflow model

The handlers in manual_load.py mutate a per-entry dictionary
(`candidate_options` / `selected_label` / `last_candidates`), write Home
Assistant entity states, send a dispatcher signal and may raise
`HomeAssistantError`.  They are modelled as pure functions returning an
event trace (in emission order), the resulting session state and an
outcome.  `last_updated` timestamp attributes and the extra status
attributes (counts, sensor-presence flags, selected label) are elided from
the events; claims refer only to the stage, the reason and the ordering. -/

/-- `SENSOR_DETAILS` from const.py (const.py is not part of the sources;
the concrete entity-id string is irrelevant to every claim). -/
def SENSOR_DETAILS : String := "sensor.ezbeq_candidate_details"

/-- An observable effect of a handler. -/
inductive Event where
  | dispatch
  | setSensor (entity : String) (state : String)
  | setStatus (stage : String) (reason : String)
  | callLoadService
deriving DecidableEq, Repr

/-- A raised exception surfacing from a handler. -/
inductive Failure where
  | msg (s : String)
  /-- `HomeAssistantError(f"Invalid sensor data: {e}")` wrapping a
  `ValueError` from `int(...)`; the embedded interpreter text is elided. -/
  | invalidSensorData
  /-- An uncaught `csv.Error` ("new-line character seen in unquoted
  field") raised by `_parse_values` out of the search handler. -/
  | csvError
deriving DecidableEq, Repr

inductive Outcome where
  | ok
  | fail (e : Failure)
deriving DecidableEq, Repr

/-- The per-entry session dictionary. `last_candidates` is a Python dict
keyed by candidate key; insertion order (the order of the built candidate
list) is kept because `select_candidate` iterates `lookup.values()`. -/
structure Sess where
  candidate_options : List String
  selected_label : String
  last_candidates : List (String × Candidate)
deriving DecidableEq, Repr

/-- `_is_search_enabled` (manual_load.py lines 94-98): a missing switch
entity counts as enabled. -/
def is_search_enabled (gate : Option String) : Bool :=
  match gate with
  | none => true
  | some s => pyLower s == "on"

/-- The session state `_clear_manual_state` (lines 118-126) leaves behind. -/
def disabled_sess : Sess :=
  { candidate_options := ["disabled"], selected_label := "disabled", last_candidates := [] }

/-- The events of `_clear_manual_state`: dispatcher signal, then the
details sensor reset. -/
def clear_events : List Event :=
  [.dispatch, .setSensor SENSOR_DETAILS ("disabled")]

/-- The `disabled` status write that follows every `_clear_manual_state`
call in the handlers. -/
def off_status : Event := .setStatus ("disabled") ("Search toggle is off")

/-- Environment of `_service_find_candidates`: the gate switch state, the
states of the two input sensors (absent entity = `none`), and the result of
`_get_catalog_items` (`none` models a fetch/parse failure). -/
structure FindEnv where
  gate : Option String
  tmdbRaw : Option String
  titleRaw : Option String
  catalog : Option (List Item)
deriving DecidableEq, Repr

/-- Python truthiness of the `_get_catalog_items` result at line 314
(`if not catalog:`): `None` and the empty list are both falsy. -/
def truthy_catalog : Option (List Item) → Bool
  | none => false
  | some l => !l.isEmpty

structure WfRes where
  events : List Event
  sess : Sess
  outcome : Outcome
deriving DecidableEq, Repr

/-- `_service_find_candidates` (manual_load.py lines 266-361) on the
executions where `_parse_values` does not raise (the raise path is carried
by `find_candidates_run` below, which delegates here otherwise). -/
def find_candidates (env : FindEnv) (st : Sess) (limitOpt : Option Nat) : WfRes :=
  if is_search_enabled env.gate = false then
    { events := clear_events ++ [off_status], sess := disabled_sess, outcome := .ok }
  else
    let tmdb_ids := parse_values env.tmdbRaw
    let titles := parse_values env.titleRaw
    if tmdb_ids = [] ∧ titles = [] then
      { events := [.setStatus ("waiting_for_input") ("No TMDB IDs or titles provided"),
                   .dispatch, .setSensor SENSOR_DETAILS ("none")],
        sess := { st with candidate_options := ["none"], selected_label := "none" },
        outcome := .ok }
    else
      let searching := Event.setStatus ("searching") ("Running candidate search")
      if truthy_catalog env.catalog = false then
        { events := [searching,
                     .setStatus ("catalog_unavailable") ("Failed to fetch BEQ catalogue")],
          sess := st,
          outcome := .fail (.msg ("Catalogue unavailable; cannot search.")) }
      else
        let limit := limitOpt.getD DEFAULT_LIMIT
        let cands := build_candidates (env.catalog.getD []) tmdb_ids titles limit
        let st1 := { st with last_candidates := cands.map (fun (c : Candidate) => (c.key, c)) }
        match cands with
        | [] =>
          { events := [searching, .dispatch, .setSensor SENSOR_DETAILS ("none"),
                       .setStatus ("no_candidates")
                         ("No matches for provided TMDB IDs or title prefixes")],
            sess := { st1 with candidate_options := ["none"], selected_label := "none" },
            outcome := .ok }
        | c0 :: _ =>
          { events := [searching, .dispatch, .setSensor SENSOR_DETAILS c0.label,
                       .setStatus ("ready") ("Candidates available")],
            sess := { st1 with candidate_options := cands.map (fun (c : Candidate) => c.label),
                               selected_label := c0.label },
            outcome := .ok }

/-- The chosen-label falsy chain of `_service_select_candidate` (line 378):
`call.data.get("label") or domain_entry.get("selected_label") or "none"`. -/
def chosen_label_of (labelOpt : Option String) (sel : String) : String :=
  let l0 := match labelOpt with
            | some l => if l = "" then sel else l
            | none => sel
  if l0 = "" then "none" else l0

/-- `_service_select_candidate` (manual_load.py lines 364-400). -/
def select_candidate (gate : Option String) (st : Sess) (labelOpt : Option String) : WfRes :=
  if is_search_enabled gate = false then
    { events := clear_events ++ [off_status], sess := disabled_sess,
      outcome := .fail (.msg ("Candidate selection blocked: search toggle is off")) }
  else
    let lbl := chosen_label_of labelOpt st.selected_label
    match (st.last_candidates.map Prod.snd).find? (fun c => c.label == lbl) with
    | none =>
      { events := [.setStatus ("error")
                     ("Candidate '" ++ lbl ++ "' not found in last results")],
        sess := st,
        outcome := .fail (.msg ("Candidate '" ++ lbl ++ "' not found in last results")) }
    | some chosen =>
      { events := [.setSensor SENSOR_DETAILS chosen.label, .dispatch,
                   .setStatus ("ready") ("Candidate selected")],
        sess := { st with selected_label := lbl },
        outcome := .ok }

/-- `_handle_search_toggle` (manual_load.py lines 497-504): on a state
change whose new state is not "on", clear the session and set the
`disabled` stage; an event without a new state is ignored. -/
def handle_search_toggle (newState : Option String) (st : Sess) : List Event × Sess :=
  match newState with
  | none => ([], st)
  | some s =>
    if pyLower s ≠ "on" then (clear_events ++ [off_status], disabled_sess)
    else ([], st)

/-! ## `_service_load_selected_candidate` (manual_load.py lines 403-471)
and `load_beq_profile` (services.py lines 20-69)

The load handler writes the selected candidate's fields into caller-named
sensor entities and then calls the `load_beq_profile` service with
`blocking=True`, so an exception raised inside that service propagates out
of the handler.  The Home Assistant state machine the two sides share is
threaded as an association list.  `coordinator.client.load_beq_profile` is
an external HTTP call, modelled by its result in the environment. -/

/-- The attributes of the details sensor that the load path reads.  The
string-valued keys are read through `attrs.get(key, "")`, so an absent key
and `""` coincide; `year` is read through `attrs.get("year", 0)` whose
default is the integer `0`, so absence is kept (the stored value's `str()`
form is held, matching what `hass.states.async_set` records). -/
structure DetailAttrs where
  author : String
  tmdb_id : String
  year : Option String
  audio_type : String
  edition : String
  title : String
deriving DecidableEq, Repr

/-- The service-call data of `load_selected_candidate`.  Each sensor key is
`none` when absent from the call; `call.data.get(k)` then yields `None`,
which the handler's payload still carries under the key. -/
structure LoadCall where
  tmdb_sensor : Option String
  year_sensor : Option String
  codec_sensor : Option String
  edition_sensor : Option String
  title_sensor : Option String
  slots : Option (List Int)
  enable_audio_codec_substitutions : Bool
deriving DecidableEq, Repr

structure LoadEnv where
  gate : Option String
  /-- The details sensor: its state string and its attribute dictionary
  (`none` models an empty attribute dictionary, which is falsy). -/
  details : Option (String × Option DetailAttrs)
  /-- The pre-existing entity states visible to `get_sensor_state`. -/
  states0 : List (String × String)
  /-- Result of `coordinator.client.load_beq_profile(search_request)`. -/
  clientLoad : Except String Unit
deriving Repr

structure LoadRes where
  events : List Event
  states : List (String × String)
  sess : Sess
  outcome : Outcome
deriving DecidableEq, Repr

/-- Python truthiness of `call.data.get(k)` for a sensor name. -/
def truthy_sensor : Option String → Bool
  | none => false
  | some s => s ≠ ""

/-- `hass.states.async_set` on the threaded state map. -/
def states_set (m : List (String × String)) (k v : String) : List (String × String) :=
  (k, v) :: m.filter (fun p => p.1 ≠ k)

/-- `get_sensor_state` (services.py lines 23-28).  A `None` entity id (an
optional sensor key absent from the original call but present in the
payload) finds no state and raises. -/
def get_sensor_state (m : List (String × String)) (entity : Option String) :
    Except Failure String :=
  match entity with
  | none => .error (.msg ("Sensor None not found"))
  | some e =>
    match m.find? (fun p => p.1 == e) with
    | some p => .ok p.2
    | none => .error (.msg ("Sensor " ++ e ++ " not found"))

/-- Digits of a decimal literal. -/
def digitsToNat : List Char → Option Nat
  | [] => none
  | ds =>
    ds.foldl (fun acc c =>
      match acc with
      | none => none
      | some n => if c.isDigit then some (n * 10 + (c.toNat - ('0').toNat)) else none)
      (some 0)

/-- Python `int(s)` on a string: strip, optional sign, decimal digits
(`None` = `ValueError`; Python's underscore digit grouping is not used by
any reachable value and is not modelled). -/
def pyInt (s : String) : Option Int :=
  match (pyStrip s).data with
  | '+' :: ds => (digitsToNat ds).map Int.ofNat
  | '-' :: ds => (digitsToNat ds).map (fun n => -(Int.ofNat n))
  | ds => (digitsToNat ds).map Int.ofNat

/-- `load_beq_profile` (services.py lines 20-69): build the search request,
reading the named sensors in source order (`tmdb`, `year` + `int(...)`,
`codec`, `edition`, `title` — the payload always carries the optional keys,
so both are always read), then call the ezbeq client.  Only the outcome is
observable; the service writes no status record. -/
def load_beq_profile (m : List (String × String)) (call : LoadCall)
    (client : Except String Unit) : Outcome :=
  match get_sensor_state m call.tmdb_sensor with
  | .error e => .fail e
  | .ok _ =>
    match get_sensor_state m call.year_sensor with
    | .error e => .fail e
    | .ok y =>
      match pyInt y with
      | none => .fail .invalidSensorData
      | some _ =>
        match get_sensor_state m call.codec_sensor with
        | .error e => .fail e
        | .ok _ =>
          match get_sensor_state m call.edition_sensor with
          | .error e => .fail e
          | .ok _ =>
            match get_sensor_state m call.title_sensor with
            | .error e => .fail e
            | .ok _ =>
              match client with
              | .error emsg => .fail (.msg ("Failed to load BEQ profile: " ++ emsg))
              | .ok _ => .ok

/-- The sensor writes of the load handler (manual_load.py lines 452-458):
the three mandatory destinations, then the optional edition/title ones when
their payload entry is truthy.  Returns the events in write order and the
resulting state map. -/
def load_writes (states0 : List (String × String)) (attrs : DetailAttrs)
    (call : LoadCall) : List Event × List (String × String) :=
  let tS := call.tmdb_sensor.getD ""
  let yS := call.year_sensor.getD ""
  let cS := call.codec_sensor.getD ""
  let yV := attrs.year.getD ("0")
  let m3 := states_set (states_set (states_set states0 tS attrs.tmdb_id) yS yV)
    cS attrs.audio_type
  let ev3 := [Event.setSensor tS attrs.tmdb_id, Event.setSensor yS yV,
              Event.setSensor cS attrs.audio_type]
  let m4 := if truthy_sensor call.edition_sensor then
              states_set m3 (call.edition_sensor.getD "") attrs.edition else m3
  let ev4 := if truthy_sensor call.edition_sensor then
               ev3 ++ [Event.setSensor (call.edition_sensor.getD "") attrs.edition] else ev3
  let m5 := if truthy_sensor call.title_sensor then
              states_set m4 (call.title_sensor.getD "") attrs.title else m4
  let ev5 := if truthy_sensor call.title_sensor then
               ev4 ++ [Event.setSensor (call.title_sensor.getD "") attrs.title] else ev4
  (ev5, m5)

/-- The tail of the load handler after validation: write the destination
sensors, call the `load_beq_profile` service with `blocking=True`
(manual_load.py lines 460-465; its exception propagates), and on success
write the `loaded` status (lines 466-471). -/
def load_go (states0 : List (String × String)) (attrs : DetailAttrs) (call : LoadCall)
    (clientLoad : Except String Unit) (st : Sess) (selected : String) : LoadRes :=
  match load_beq_profile (load_writes states0 attrs call).2 call clientLoad with
  | .fail e =>
    { events := (load_writes states0 attrs call).1 ++ [.callLoadService],
      states := (load_writes states0 attrs call).2, sess := st, outcome := .fail e }
  | .ok =>
    { events := (load_writes states0 attrs call).1 ++ [.callLoadService,
        .setStatus ("loaded") ("Candidate '" ++ selected ++ "' loaded into BEQ profile")],
      states := (load_writes states0 attrs call).2, sess := st, outcome := .ok }

/-- `_service_load_selected_candidate` (manual_load.py lines 403-471). -/
def load_selected_candidate (env : LoadEnv) (st : Sess) (call : LoadCall) : LoadRes :=
  if is_search_enabled env.gate = false then
    { events := clear_events ++ [off_status], states := env.states0, sess := disabled_sess,
      outcome := .fail (.msg ("Manual load blocked: search toggle is off")) }
  else
    let selected := st.selected_label
    match env.details with
    | none =>
      { events := [.setStatus ("error") ("No candidate selected to load")],
        states := env.states0, sess := st,
        outcome := .fail (.msg ("No candidate selected to load")) }
    | some (dstate, dattrs) =>
      if dstate = "none" ∨ dstate = "disabled" then
        { events := [.setStatus ("error") ("No candidate selected to load")],
          states := env.states0, sess := st,
          outcome := .fail (.msg ("No candidate selected to load")) }
      else
        match dattrs with
        | none =>
          { events := [.setStatus ("error") ("Candidate details missing")],
            states := env.states0, sess := st,
            outcome := .fail (.msg ("Candidate details missing")) }
        | some attrs =>
          let missing :=
            (if truthy_sensor call.tmdb_sensor then [] else [("tmdb_sensor")])
              ++ (if truthy_sensor call.year_sensor then [] else [("year_sensor")])
              ++ (if truthy_sensor call.codec_sensor then [] else [("codec_sensor")])
          if missing ≠ [] then
            { events := [.setStatus ("error")
                           ("Missing required service data: " ++ String.intercalate (", ") missing)],
              states := env.states0, sess := st,
              outcome := .fail (.msg ("load_selected_candidate requires tmdb_sensor, year_sensor, codec_sensor service data.")) }
          else
            load_go env.states0 attrs call env.clientLoad st selected

/-! ## The catalogue-document shape handling of `_get_catalog_items`
(manual_load.py lines 176-181): a JSON list is the item list; a JSON object
yields `data.get("titles") or list(data.values())`; anything else is a
failure.  A successful fetch can therefore return an empty list. -/

inductive CatalogDoc where
  | list (items : List Item)
  | obj (titlesKey : Option (List Item)) (vals : List Item)
  | other
deriving DecidableEq, Repr

def catalog_items_of : CatalogDoc → Option (List Item)
  | .list l => some l
  | .obj titlesKey vals =>
    some (match titlesKey with
          | some ts => if ts.isEmpty then vals else ts
          | none => vals)
  | .other => none

/-! ## Concrete data for witnesses -/

/-- An item with every optional key absent, used as a base for examples. -/
def baseItem : Item :=
  { theMovieDB := "", title := none, altTitle := none, year := none, edition := none,
    audioTypes := .absent, author := .absent, authors := .absent, genres := .absent,
    genre := .absent, images := .absent, mv := none, warning := none, note := none,
    source := none, content_type := none, language := none }

def demoItem : Item :=
  { baseItem with
    theMovieDB := "603"
    title := some ("The Matrix")
    year := some ("1999")
    audioTypes := .list [("Atmos"), ("5.1")]
    author := .str ("aron7awol") }

def demoItem2 : Item :=
  { baseItem with
    theMovieDB := "604"
    title := some ("The Matrix Reloaded")
    year := some ("2003")
    audioTypes := .list [("DTS")]
    author := .str ("mobe1969") }

def demoItemNoAudio : Item :=
  { baseItem with theMovieDB := "99", title := some ("Silent"), year := some ("2001") }

def demoCand : Candidate := mk_candidate demoItem ("Atmos")

def sess0 : Sess :=
  { candidate_options := [("none")], selected_label := "none", last_candidates := [] }

/-- A session as left by a successful search for `demoItem`. -/
def sessReady : Sess :=
  { candidate_options := [demoCand.label, (mk_candidate demoItem ("5.1")).label],
    selected_label := demoCand.label,
    last_candidates := [(demoCand.key, demoCand),
                        ((mk_candidate demoItem ("5.1")).key, mk_candidate demoItem ("5.1"))] }

/-- A search environment whose catalogue fetch succeeded with an empty
item list. -/
def envEmptyCat : FindEnv :=
  { gate := some ("on"), tmdbRaw := some ("603"), titleRaw := none, catalog := some [] }

/-- A search environment with a non-empty catalogue and no matching input. -/
def envNoMatch : FindEnv :=
  { gate := some ("on"), tmdbRaw := some ("999"), titleRaw := none,
    catalog := some [demoItem] }

theorem dedupAux_append (seen : List String) (a b : List Candidate) :
    dedupAux seen (a ++ b) = dedupAux seen a ++ dedupAux (seenAux seen a) b := by
  induction a generalizing seen with
  | nil => simp [dedupAux, seenAux]
  | cons c r ih =>
    by_cases h : c.key ∈ seen <;> simp [dedupAux, seenAux, h, ih]

theorem foldl_dedupStep (l : List Candidate) (seen : List String) (acc : List Candidate) :
    l.foldl dedupStep (seen, acc) = (seenAux seen l, acc ++ dedupAux seen l) := by
  induction l generalizing seen acc with
  | nil => simp [seenAux, dedupAux]
  | cons c r ih =>
    by_cases h : c.key ∈ seen <;>
      simp [List.foldl_cons, dedupStep, h, ih, seenAux, dedupAux]

theorem add_item_foldl (item : Item) (st : List String × List Candidate) :
    add_item item st = (expand_raw item).foldl dedupStep st := by
  simp only [add_item, expand_raw, List.foldl_map, dedupStep, mk_candidate]

theorem foldl_sel_step (p : Item → Bool) (items : List Item)
    (st : List String × List Candidate) :
    items.foldl (sel_step p) st = ((items.filter p).flatMap expand_raw).foldl dedupStep st := by
  induction items generalizing st with
  | nil => simp
  | cons it rest ih =>
    by_cases h : p it
    · simp [List.foldl_cons, sel_step, h, List.filter_cons, ih, List.foldl_append,
        add_item_foldl]
    · simp [List.foldl_cons, sel_step, h, List.filter_cons, ih]

theorem foldl_sel_step_snd (p : Item → Bool) (items : List Item)
    (st : List String × List Candidate) :
    (items.foldl (sel_step p) st).2
      = st.2 ++ dedupAux st.1 ((items.filter p).flatMap expand_raw) := by
  obtain ⟨seen, acc⟩ := st
  rw [foldl_sel_step, foldl_dedupStep]

theorem pfx_loop_take (ps : List String) (limit : Nat) (items : List Item)
    (st : List String × List Candidate) :
    ((pfx_loop ps limit items st).2).take limit
      = ((items.foldl (sel_step (prefix_match ps)) st).2).take limit := by
  induction items generalizing st with
  | nil => simp [pfx_loop]
  | cons it rest ih =>
    by_cases h : limit ≤ st.2.length
    · rw [pfx_loop, if_pos h, List.foldl_cons]
      rw [foldl_sel_step_snd]
      have hst2 : (sel_step (prefix_match ps) st it).2 = st.2 ++ (dedupAux st.1 (if prefix_match ps it then expand_raw it else [])) := by
        by_cases hm : prefix_match ps it
        · simp [sel_step, hm, add_item_foldl]
          obtain ⟨seen, acc⟩ := st
          rw [foldl_dedupStep]
        · simp [sel_step, hm, dedupAux]
      rw [hst2, List.append_assoc, List.take_append_eq_append_take,
        Nat.sub_eq_zero_of_le h, List.take_zero, List.append_nil]
    · rw [pfx_loop, if_neg h, List.foldl_cons, ih]

/-- The pass-1 state equals the deduplicated ID-pass scan. -/
theorem pass1_state (items : List Item) (idsN : List String) :
    (if idsN = [] then (([], []) : List String × List Candidate)
     else items.foldl (sel_step (id_pred idsN)) ([], []))
      = (seenAux [] (raw_id_pass items idsN), dedupAux [] (raw_id_pass items idsN)) := by
  by_cases h : idsN = []
  · simp [h, raw_id_pass, seenAux, dedupAux]
  · rw [if_neg h, raw_id_pass, if_neg h, foldl_sel_step, foldl_dedupStep, List.nil_append]

/-- Master characterization of `_build_candidates`: it is the
first-occurrence key-deduplication of the ID-pass scan sequence followed by
the prefix-pass scan sequence, truncated to the first `limit` entries.
Both scan sequences walk the catalogue in its original order and expand
each matched item in the order of its audio-track-type list. -/
theorem build_candidates_eq (items : List Item) (ids prefs : List String) (limit : Nat) :
    build_candidates items ids prefs limit
      = (firstDedup (raw_id_pass items (norm_ids ids)
          ++ raw_pfx_pass items (norm_prefs prefs))).take limit := by
  have hfd : firstDedup (raw_id_pass items (norm_ids ids)
      ++ raw_pfx_pass items (norm_prefs prefs))
      = dedupAux [] (raw_id_pass items (norm_ids ids))
        ++ dedupAux (seenAux [] (raw_id_pass items (norm_ids ids)))
            (raw_pfx_pass items (norm_prefs prefs)) := by
    rw [firstDedup, dedupAux_append]
  rw [hfd]
  show (let idsN := norm_ids ids
        let prefsN := norm_prefs prefs
        let st1 := if idsN = [] then (([], []) : List String × List Candidate)
                   else items.foldl (sel_step (id_pred idsN)) ([], [])
        let st2 := if prefsN ≠ [] ∧ st1.2.length < limit then pfx_loop prefsN limit items st1
                   else st1
        st2.2.take limit) = _
  simp only [pass1_state]
  by_cases hp : norm_prefs prefs = []
  · simp only [hp, ne_eq, not_true_eq_false, false_and, if_false, raw_pfx_pass, if_pos rfl,
      dedupAux, List.append_nil]
  · by_cases hlen : (dedupAux [] (raw_id_pass items (norm_ids ids))).length < limit
    · simp only [ne_eq, hp, not_false_eq_true, hlen, and_self, if_true]
      rw [pfx_loop_take, foldl_sel_step_snd]
      rw [raw_pfx_pass, if_neg hp]
    · simp only [ne_eq, hp, not_false_eq_true, hlen, and_false, if_false]
      rw [List.take_append_eq_append_take, Nat.sub_eq_zero_of_le (Nat.le_of_not_lt hlen),
        List.take_zero, List.append_nil]

/-! ## Lemmas: deduplication properties -/

theorem mem_of_mem_dedupAux {seen : List String} {l : List Candidate} {c : Candidate}
    (h : c ∈ dedupAux seen l) : c ∈ l := by
  induction l generalizing seen with
  | nil => simp [dedupAux] at h
  | cons x r ih =>
    by_cases hx : x.key ∈ seen
    · simp only [dedupAux, if_pos hx] at h
      exact List.mem_cons_of_mem x (ih h)
    · simp only [dedupAux, if_neg hx, List.mem_cons] at h
      rcases h with h | h
      · exact h ▸ List.mem_cons_self x r
      · exact List.mem_cons_of_mem x (ih h)

theorem key_not_mem_seen_of_mem_dedupAux {seen : List String} {l : List Candidate}
    {c : Candidate} (h : c ∈ dedupAux seen l) : c.key ∉ seen := by
  induction l generalizing seen with
  | nil => simp [dedupAux] at h
  | cons x r ih =>
    by_cases hx : x.key ∈ seen
    · simp only [dedupAux, if_pos hx] at h
      exact ih h
    · simp only [dedupAux, if_neg hx, List.mem_cons] at h
      rcases h with h | h
      · exact h ▸ hx
      · intro hc
        exact ih h (List.mem_cons_of_mem _ hc)

theorem mem_seenAux_of_mem_seen {seen : List String} {l : List Candidate} {s : String}
    (h : s ∈ seen) : s ∈ seenAux seen l := by
  induction l generalizing seen with
  | nil => simpa [seenAux] using h
  | cons x r ih =>
    by_cases hx : x.key ∈ seen
    · simpa only [seenAux, if_pos hx] using ih h
    · simp only [seenAux, if_neg hx]
      exact ih (List.mem_cons_of_mem _ h)

theorem key_mem_seenAux_of_mem {seen : List String} {l : List Candidate} {c : Candidate}
    (h : c ∈ l) : c.key ∈ seenAux seen l := by
  induction l generalizing seen with
  | nil => simp at h
  | cons x r ih =>
    by_cases hx : x.key ∈ seen
    · simp only [seenAux, if_pos hx]
      rcases List.mem_cons.mp h with h | h
      · exact h ▸ mem_seenAux_of_mem_seen hx
      · exact ih h
    · simp only [seenAux, if_neg hx]
      rcases List.mem_cons.mp h with h | h
      · exact h ▸ mem_seenAux_of_mem_seen (List.mem_cons_self _ _)
      · exact ih h

theorem find?_dedupAux {seen : List String} {l : List Candidate} {c : Candidate}
    (h : c ∈ dedupAux seen l) : l.find? (fun x => x.key == c.key) = some c := by
  induction l generalizing seen with
  | nil => simp [dedupAux] at h
  | cons x r ih =>
    by_cases hx : x.key ∈ seen
    · simp only [dedupAux, if_pos hx] at h
      have hne : (x.key == c.key) = false := by
        by_contra hb
        have : x.key = c.key := by
          have := eq_true_of_ne_false hb
          exact eq_of_beq (by simpa using this)
        exact key_not_mem_seen_of_mem_dedupAux h (this ▸ hx)
      rw [List.find?_cons, hne]
      exact ih h
    · simp only [dedupAux, if_neg hx, List.mem_cons] at h
      rcases h with h | h
      · subst h
        rw [List.find?_cons, beq_self_eq_true]
      · have hnotin : c.key ∉ x.key :: seen := key_not_mem_seen_of_mem_dedupAux h
        have hne : (x.key == c.key) = false := by
          by_contra hb
          have hxk : x.key = c.key := eq_of_beq (by simpa using eq_true_of_ne_false hb)
          exact hnotin (hxk ▸ List.mem_cons_self _ _)
        rw [List.find?_cons, hne]
        exact ih h

theorem pairwise_key_ne_dedupAux (seen : List String) (l : List Candidate) :
    (dedupAux seen l).Pairwise (fun a b => a.key ≠ b.key) := by
  induction l generalizing seen with
  | nil => simp [dedupAux]
  | cons x r ih =>
    by_cases hx : x.key ∈ seen
    · simpa only [dedupAux, if_pos hx] using ih seen
    · simp only [dedupAux, if_neg hx]
      refine List.Pairwise.cons ?_ (ih (x.key :: seen))
      intro b hb hxb
      exact key_not_mem_seen_of_mem_dedupAux hb (hxb ▸ List.mem_cons_self _ _)

theorem nodup_keys_dedupAux (seen : List String) (l : List Candidate) :
    ((dedupAux seen l).map (fun (c : Candidate) => c.key)).Nodup := by
  have hp := pairwise_key_ne_dedupAux seen l
  simpa [List.Nodup, List.pairwise_map] using hp

/-! ## Lemmas: sources of candidates in the scan sequences -/

theorem tmdb_of_mem_expand_raw {item : Item} {c : Candidate} (h : c ∈ expand_raw item) :
    c.tmdb_id = item.theMovieDB := by
  rcases List.mem_map.mp h with ⟨aud, _, rfl⟩
  rfl

theorem id_matched_of_mem_raw_id_pass {items : List Item} {idsN : List String}
    {c : Candidate} (h : c ∈ raw_id_pass items idsN) :
    cand_id_matched idsN c = true := by
  rw [raw_id_pass] at h
  by_cases hids : idsN = []
  · simp [hids] at h
  · rw [if_neg hids] at h
    rcases List.mem_flatMap.mp h with ⟨it, hit, hc⟩
    have hp : id_pred idsN it = true := (List.mem_filter.mp hit).2
    rw [cand_id_matched, tmdb_of_mem_expand_raw hc]
    simpa [id_pred] using hp

theorem mem_raw_id_pass_of_source {items : List Item} {idsN : List String}
    {it : Item} {c : Candidate} (hit : it ∈ items) (hp : id_pred idsN it = true)
    (hc : c ∈ expand_raw it) : c ∈ raw_id_pass items idsN := by
  have hids : idsN ≠ [] := by
    intro hnil
    simp [id_pred, hnil] at hp
  rw [raw_id_pass, if_neg hids]
  exact List.mem_flatMap.mpr ⟨it, List.mem_filter.mpr ⟨hit, hp⟩, hc⟩

theorem not_id_matched_of_mem_pfx_rest {items : List Item} {idsN prefsN : List String}
    {c : Candidate}
    (h : c ∈ dedupAux (seenAux [] (raw_id_pass items idsN)) (raw_pfx_pass items prefsN)) :
    cand_id_matched idsN c = false := by
  by_contra hb
  have hmatched : cand_id_matched idsN c = true := by
    revert hb
    cases cand_id_matched idsN c <;> simp
  have hcmem : c ∈ raw_pfx_pass items prefsN := mem_of_mem_dedupAux h
  have hnotseen := key_not_mem_seen_of_mem_dedupAux h
  rw [raw_pfx_pass] at hcmem
  by_cases hps : prefsN = []
  · simp [hps] at hcmem
  · rw [if_neg hps] at hcmem
    rcases List.mem_flatMap.mp hcmem with ⟨it, hit, hc⟩
    have hidp : id_pred idsN it = true := by
      rw [id_pred]
      rw [cand_id_matched, tmdb_of_mem_expand_raw hc] at hmatched
      simpa using hmatched
    have : c ∈ raw_id_pass items idsN :=
      mem_raw_id_pass_of_source (List.mem_filter.mp hit).1 hidp hc
    exact hnotseen (key_mem_seenAux_of_mem this)

/-- Partitioning: a list that is all-`p` elements followed by all-not-`p`
elements equals its `p`-filter followed by its not-`p`-filter. -/
theorem append_eq_filter_append {α : Type} (p : α → Bool) (l1 l2 : List α)
    (h1 : ∀ c ∈ l1, p c = true) (h2 : ∀ c ∈ l2, p c = false) :
    l1 ++ l2 = (l1 ++ l2).filter p ++ (l1 ++ l2).filter (fun c => !(p c)) := by
  have e1 : l1.filter p = l1 := List.filter_eq_self.mpr h1
  have e2 : l2.filter p = [] := by
    rw [List.filter_eq_nil_iff]
    intro a ha
    simp [h2 a ha]
  have e3 : l1.filter (fun c => !(p c)) = [] := by
    rw [List.filter_eq_nil_iff]
    intro a ha
    simp [h1 a ha]
  have e4 : l2.filter (fun c => !(p c)) = l2 := by
    refine List.filter_eq_self.mpr ?_
    intro a ha
    simp [h2 a ha]
  rw [List.filter_append, List.filter_append, e1, e2, e3, e4, List.append_nil,
    List.nil_append]

/-! ## Claim theorems -/

/-- C1: for every item list, every non-empty ids list, every prefixes list
and every limit, `_build_candidates` places every candidate derived from an
ID-matched item before any candidate found only via prefix matching,
regardless of catalogue order (the output equals its ID-matched filter
followed by its non-ID-matched filter); moreover the output is the
limit-truncated first-occurrence deduplication of the ID-pass scan followed
by the prefix-pass scan, each of which walks the catalogue in its original
order and expands each item in the order of its audio-track-type list. -/
theorem C1_id_matches_precede (items : List Item) (ids prefs : List String) (limit : Nat)
    (_hids : ids ≠ []) :
    build_candidates items ids prefs limit
      = (build_candidates items ids prefs limit).filter (cand_id_matched (norm_ids ids))
        ++ (build_candidates items ids prefs limit).filter
             (fun c => !(cand_id_matched (norm_ids ids) c))
    ∧ build_candidates items ids prefs limit
        = (firstDedup (raw_id_pass items (norm_ids ids)
            ++ raw_pfx_pass items (norm_prefs prefs))).take limit := by
  have hmaster := build_candidates_eq items ids prefs limit
  refine ⟨?_, hmaster⟩
  rw [hmaster, firstDedup, dedupAux_append, List.take_append_eq_append_take]
  exact append_eq_filter_append _ _ _
    (fun c hc =>
      id_matched_of_mem_raw_id_pass (mem_of_mem_dedupAux (List.mem_of_mem_take hc)))
    (fun c hc => not_id_matched_of_mem_pfx_rest (List.mem_of_mem_take hc))

/-- Witness for C1: a catalogue listing the prefix-matched item before the
ID-matched one still yields the ID match first. -/
theorem C1_id_matches_precede_witness :
    ([("603")] : List String) ≠ []
    ∧ build_candidates [demoItem2, demoItem] [("603")] [("The Matrix")] 10
        = (build_candidates [demoItem2, demoItem] [("603")] [("The Matrix")] 10).filter
            (cand_id_matched (norm_ids [("603")]))
          ++ (build_candidates [demoItem2, demoItem] [("603")] [("The Matrix")] 10).filter
               (fun c => !(cand_id_matched (norm_ids [("603")]) c)) :=
  ⟨by decide,
   (C1_id_matches_precede [demoItem2, demoItem] [("603")] [("The Matrix")] 10 (by decide)).1⟩

/-- C2: `_build_candidates` returns at most `limit` candidates; it is a
pure function, so identical inputs give the identical ordered sequence; and
`_service_find_candidates` invoked without a `limit` behaves exactly as
with `DEFAULT_LIMIT`, which is 10. -/
theorem C2_limit_default_deterministic :
    (∀ (items : List Item) (ids prefs : List String) (limit : Nat),
       (build_candidates items ids prefs limit).length ≤ limit)
    ∧ (∀ (items items2 : List Item) (ids ids2 prefs prefs2 : List String)
         (limit limit2 : Nat), items = items2 → ids = ids2 → prefs = prefs2 →
         limit = limit2 →
         build_candidates items ids prefs limit
           = build_candidates items2 ids2 prefs2 limit2)
    ∧ (∀ (env : FindEnv) (st : Sess),
         find_candidates env st none = find_candidates env st (some DEFAULT_LIMIT))
    ∧ DEFAULT_LIMIT = 10 := by
  refine ⟨?_, ?_, ?_, rfl⟩
  · intro items ids prefs limit
    rw [build_candidates_eq]
    exact List.length_take_le _ _
  · intro items items2 ids ids2 prefs prefs2 limit limit2 h1 h2 h3 h4
    subst h1; subst h2; subst h3; subst h4
    rfl
  · intro env st
    rfl

/-- Witness for C2 at a concrete input. -/
theorem C2_limit_default_deterministic_witness :
    (build_candidates [demoItem] [("603")] [] 1).length ≤ 1
    ∧ build_candidates [demoItem] [("603")] [] 1
        = build_candidates [demoItem] [("603")] [] 1 :=
  ⟨C2_limit_default_deterministic.1 [demoItem] [("603")] [] 1,
   C2_limit_default_deterministic.2.1 [demoItem] [demoItem] [("603")] [("603")] [] [] 1 1
     rfl rfl rfl rfl⟩

/-- C3: the output of `_build_candidates` never contains two candidates
with the same deduplication key, and every returned candidate is the first
occurrence of its key in the two-pass scan sequence (later duplicates are
dropped). -/
theorem C3_dedup_first_wins (items : List Item) (ids prefs : List String) (limit : Nat) :
    ((build_candidates items ids prefs limit).map (fun (c : Candidate) => c.key)).Nodup
    ∧ ∀ c ∈ build_candidates items ids prefs limit,
        (raw_id_pass items (norm_ids ids) ++ raw_pfx_pass items (norm_prefs prefs)).find?
          (fun x => x.key == c.key) = some c := by
  constructor
  · rw [build_candidates_eq, firstDedup, List.map_take]
    exact List.Nodup.sublist (List.take_sublist _ _) (nodup_keys_dedupAux _ _)
  · intro c hc
    rw [build_candidates_eq] at hc
    have hc2 : c ∈ firstDedup (raw_id_pass items (norm_ids ids)
        ++ raw_pfx_pass items (norm_prefs prefs)) := List.mem_of_mem_take hc
    rw [firstDedup] at hc2
    exact find?_dedupAux hc2

/-- Witness for C3: a catalogue containing the same item twice yields its
candidates once, and the kept candidate is the first scan occurrence. -/
theorem C3_dedup_first_wins_witness :
    demoCand ∈ build_candidates [demoItem, demoItem] [("603")] [] 10
    ∧ (raw_id_pass [demoItem, demoItem] (norm_ids [("603")])
        ++ raw_pfx_pass [demoItem, demoItem] (norm_prefs [])).find?
          (fun x => x.key == demoCand.key) = some demoCand :=
  ⟨by decide,
   (C3_dedup_first_wins [demoItem, demoItem] [("603")] [] 10).2 demoCand (by decide)⟩

theorem add_item_snd (item : Item) (seen : List String) (acc : List Candidate) :
    (add_item item (seen, acc)).2 = acc ++ dedupAux seen (expand_raw item) := by
  rw [add_item_foldl, foldl_dedupStep]

theorem eq_mk_of_mem_expand {item : Item} {c : Candidate} (h : c ∈ expand_raw item) :
    c = mk_candidate item c.audio_type ∧ c.audio_type ∈ audio_types_of item := by
  rcases List.mem_map.mp h with ⟨aud, haud, rfl⟩
  exact ⟨rfl, haud⟩

theorem fields_of_mem_expand {item : Item} {c : Candidate} (h : c ∈ expand_raw item) :
    c.title = item.title.getD "" ∧ c.edition = edition_raw_of item
      ∧ c.author = author_display item := by
  rcases List.mem_map.mp h with ⟨aud, _, rfl⟩
  exact ⟨rfl, rfl, rfl⟩

theorem pairwise_audio_dedupAux (item : Item) (seen : List String) :
    (dedupAux seen (expand_raw item)).Pairwise
      (fun a b => a.audio_type ≠ b.audio_type) := by
  have hp := pairwise_key_ne_dedupAux seen (expand_raw item)
  refine List.Pairwise.imp_of_mem ?_ hp
  intro a b ha hb hkey heq
  have ea := (eq_mk_of_mem_expand (mem_of_mem_dedupAux ha)).1
  have eb := (eq_mk_of_mem_expand (mem_of_mem_dedupAux hb)).1
  apply hkey
  rw [ea, eb, heq]

theorem length_dedupAux_le_dedup (item : Item) (seen : List String) :
    (dedupAux seen (expand_raw item)).length ≤ ((audio_types_of item).dedup).length := by
  have hnd : ((dedupAux seen (expand_raw item)).map
      (fun (c : Candidate) => c.audio_type)).Nodup := by
    have hp := pairwise_audio_dedupAux item seen
    simpa [List.Nodup, List.pairwise_map] using hp
  have hsub : ((dedupAux seen (expand_raw item)).map (fun (c : Candidate) => c.audio_type))
      ⊆ (audio_types_of item).dedup := by
    intro a ha
    rcases List.mem_map.mp ha with ⟨c, hc, rfl⟩
    exact List.mem_dedup.mpr (eq_mk_of_mem_expand (mem_of_mem_dedupAux hc)).2
  calc (dedupAux seen (expand_raw item)).length
      = ((dedupAux seen (expand_raw item)).map
          (fun (c : Candidate) => c.audio_type)).length := (List.length_map _ _).symm
    _ ≤ ((audio_types_of item).dedup).length := List.Subperm.length_le (hnd.subperm hsub)

/-- C4: expanding one matched item yields at most one candidate per
distinct audio-track type; all its candidates share the item's title,
edition and author and differ pairwise in audio-track type, each carrying
one entry of the item's audio-track-type list; an item with zero
audio-track types yields exactly one candidate, whose audio type is empty
and whose label shows "Unknown". -/
theorem C4_audio_expansion (item : Item) (seen : List String) (acc : List Candidate) :
    (add_item item (seen, acc)).2 = acc ++ dedupAux seen (expand_raw item)
    ∧ (dedupAux seen (expand_raw item)).length ≤ ((audio_types_of item).dedup).length
    ∧ (∀ c ∈ dedupAux seen (expand_raw item),
         c.title = item.title.getD "" ∧ c.edition = edition_raw_of item
           ∧ c.author = author_display item ∧ c.audio_type ∈ audio_types_of item)
    ∧ (dedupAux seen (expand_raw item)).Pairwise (fun a b => a.audio_type ≠ b.audio_type)
    ∧ (as_list_strict item.audioTypes = [] →
         add_item item ([], []) = ([candidate_key item ""], [mk_candidate item ""])
         ∧ (mk_candidate item "").audio_type = ""
         ∧ ∃ a b, (mk_candidate item "").label = a ++ ("Unknown" ++ b)) := by
  refine ⟨add_item_snd item seen acc, length_dedupAux_le_dedup item seen, ?_,
    pairwise_audio_dedupAux item seen, ?_⟩
  · intro c hc
    have hmem := mem_of_mem_dedupAux hc
    obtain ⟨h1, h2, h3⟩ := fields_of_mem_expand hmem
    exact ⟨h1, h2, h3, (eq_mk_of_mem_expand hmem).2⟩
  · intro hz
    have haud : audio_types_of item = [("")] := by
      rw [audio_types_of]
      simp [hz]
    refine ⟨?_, rfl, ?_⟩
    · rw [add_item, haud]
      simp
    · refine ⟨item.title.getD "?" ++ " (" ++ item.year.getD "?" ++ ") • "
          ++ edition_display_of item ++ " • ", " • " ++ author_or_na item, ?_⟩
      show cand_label item "" = _
      rw [cand_label]
      exact String.append_assoc _ _ _

/-- Witness for C4 at concrete items with and without audio-track types. -/
theorem C4_audio_expansion_witness :
    as_list_strict demoItemNoAudio.audioTypes = []
    ∧ add_item demoItemNoAudio ([], [])
        = ([candidate_key demoItemNoAudio ""], [mk_candidate demoItemNoAudio ""])
    ∧ (dedupAux [] (expand_raw demoItem)).length
        ≤ ((audio_types_of demoItem).dedup).length :=
  ⟨by decide,
   ((C4_audio_expansion demoItemNoAudio [] []).2.2.2.2 (by decide)).1,
   (C4_audio_expansion demoItem [] []).2.1⟩

/-- C7: whenever the gate is off — at entry of the search, select or load
handler, or via a toggle transition to a non-"on" state — the session is
cleared to candidate list `["disabled"]`, selection `"disabled"` and an
empty lookup, the change signal is dispatched, and nothing past the entry
check runs (search returns normally; select and load raise). -/
theorem C7_gate_off_clears :
    (∀ (env : FindEnv) (st : Sess) (lim : Option Nat),
       is_search_enabled env.gate = false →
       find_candidates env st lim
         = { events := [.dispatch, .setSensor SENSOR_DETAILS ("disabled"),
                        .setStatus ("disabled") ("Search toggle is off")],
             sess := { candidate_options := [("disabled")], selected_label := "disabled",
                       last_candidates := [] },
             outcome := .ok })
    ∧ (∀ (gate : Option String) (st : Sess) (l : Option String),
         is_search_enabled gate = false →
         select_candidate gate st l
           = { events := [.dispatch, .setSensor SENSOR_DETAILS ("disabled"),
                          .setStatus ("disabled") ("Search toggle is off")],
               sess := { candidate_options := [("disabled")], selected_label := "disabled",
                         last_candidates := [] },
               outcome := .fail (.msg ("Candidate selection blocked: search toggle is off")) })
    ∧ (∀ (env : LoadEnv) (st : Sess) (call : LoadCall),
         is_search_enabled env.gate = false →
         load_selected_candidate env st call
           = { events := [.dispatch, .setSensor SENSOR_DETAILS ("disabled"),
                          .setStatus ("disabled") ("Search toggle is off")],
               states := env.states0,
               sess := { candidate_options := [("disabled")], selected_label := "disabled",
                         last_candidates := [] },
               outcome := .fail (.msg ("Manual load blocked: search toggle is off")) })
    ∧ (∀ (s : String) (st : Sess), pyLower s ≠ "on" →
         handle_search_toggle (some s) st
           = ([.dispatch, .setSensor SENSOR_DETAILS ("disabled"),
               .setStatus ("disabled") ("Search toggle is off")],
              { candidate_options := [("disabled")], selected_label := "disabled",
                last_candidates := [] })) := by
  refine ⟨?_, ?_, ?_, ?_⟩
  · intro env st lim h
    simp [find_candidates, h, clear_events, off_status, disabled_sess]
  · intro gate st l h
    simp [select_candidate, h, clear_events, off_status, disabled_sess]
  · intro env st call h
    simp [load_selected_candidate, h, clear_events, off_status, disabled_sess]
  · intro s st h
    simp [handle_search_toggle, h, clear_events, off_status, disabled_sess]

/-- Witness for C7 with the gate reading "off" and a previously-ready
session. -/
theorem C7_gate_off_clears_witness :
    find_candidates { gate := some ("off"), tmdbRaw := some ("603"), titleRaw := none,
                      catalog := none } sessReady none
      = { events := [.dispatch, .setSensor SENSOR_DETAILS ("disabled"),
                     .setStatus ("disabled") ("Search toggle is off")],
          sess := { candidate_options := [("disabled")], selected_label := "disabled",
                    last_candidates := [] },
          outcome := .ok }
    ∧ handle_search_toggle (some ("off")) sessReady
        = ([.dispatch, .setSensor SENSOR_DETAILS ("disabled"),
            .setStatus ("disabled") ("Search toggle is off")],
           { candidate_options := [("disabled")], selected_label := "disabled",
             last_candidates := [] }) :=
  ⟨C7_gate_off_clears.1 _ sessReady none (by decide),
   C7_gate_off_clears.2.2.2 ("off") sessReady (by decide)⟩

/-- C9: when the gate switch entity is absent from the state registry,
`_is_search_enabled` reports enabled and all three handlers behave exactly
as with the switch present and "on". -/
theorem C9_missing_switch_is_on :
    is_search_enabled none = true
    ∧ (∀ (t ti : Option String) (cat : Option (List Item)) (st : Sess) (lim : Option Nat),
         find_candidates { gate := none, tmdbRaw := t, titleRaw := ti, catalog := cat } st lim
           = find_candidates { gate := some ("on"), tmdbRaw := t, titleRaw := ti,
                               catalog := cat } st lim)
    ∧ (∀ (st : Sess) (l : Option String),
         select_candidate none st l = select_candidate (some ("on")) st l)
    ∧ (∀ (det : Option (String × Option DetailAttrs)) (s0 : List (String × String))
         (cl : Except String Unit) (st : Sess) (call : LoadCall),
         load_selected_candidate { gate := none, details := det, states0 := s0,
                                   clientLoad := cl } st call
           = load_selected_candidate { gate := some ("on"), details := det, states0 := s0,
                                       clientLoad := cl } st call) := by
  refine ⟨rfl, ?_, ?_, ?_⟩ <;> intros <;> rfl

/-- C8: with the gate on and a requested label matching no candidate label
in the latest lookup, `_service_select_candidate` writes an `error` status,
raises a failure carrying the requested label, and leaves the session state
unchanged. -/
theorem C8_selection_not_found (gate : Option String) (st : Sess) (lopt : Option String)
    (hEn : is_search_enabled gate = true)
    (hNone : ∀ p ∈ st.last_candidates,
       (Prod.snd p).label ≠ chosen_label_of lopt st.selected_label) :
    select_candidate gate st lopt
      = { events := [.setStatus ("error")
            ("Candidate '" ++ chosen_label_of lopt st.selected_label
              ++ "' not found in last results")],
          sess := st,
          outcome := .fail (.msg ("Candidate '" ++ chosen_label_of lopt st.selected_label
            ++ "' not found in last results")) } := by
  have hfind : (st.last_candidates.map Prod.snd).find?
      (fun c => c.label == chosen_label_of lopt st.selected_label) = none := by
    rw [List.find?_eq_none]
    intro c hc
    rcases List.mem_map.mp hc with ⟨p, hp, rfl⟩
    simpa using hNone p hp
  simp [select_candidate, hEn, hfind]

/-- Witness for C8: selecting a label absent from a ready session. -/
theorem C8_selection_not_found_witness :
    select_candidate (some ("on")) sessReady (some ("ZZZ"))
      = { events := [.setStatus ("error")
            ("Candidate '" ++ chosen_label_of (some ("ZZZ")) sessReady.selected_label
              ++ "' not found in last results")],
          sess := sessReady,
          outcome := .fail (.msg ("Candidate '"
            ++ chosen_label_of (some ("ZZZ")) sessReady.selected_label
            ++ "' not found in last results")) } :=
  C8_selection_not_found (some ("on")) sessReady (some ("ZZZ")) (by decide) (by decide)

/-- Counterexample to C6 as stated: the catalogue fetch can succeed with an
empty item list (`_get_catalog_items` maps the JSON document `[]` to the
empty list), the built candidate sequence is then necessarily empty, yet
the workflow raises the hard `catalog_unavailable` failure instead of
recording `no_candidates` — line 314 tests `if not catalog:`, which is true
for the empty list as well as for a failed fetch. -/
theorem C6_counterexample :
    catalog_items_of (CatalogDoc.list []) = some []
    ∧ build_candidates [] (parse_values (some ("603"))) (parse_values none) DEFAULT_LIMIT = []
    ∧ (find_candidates envEmptyCat sess0 none).outcome
        = .fail (.msg ("Catalogue unavailable; cannot search."))
    ∧ (find_candidates envEmptyCat sess0 none).events.any
        (fun e => e == .setStatus ("no_candidates")
          ("No matches for provided TMDB IDs or title prefixes")) = false := by
  decide

/-- C6 (amended): for every search invocation with the gate on, some
identifier input present, and a catalogue fetch succeeding with a
NON-EMPTY item list, an empty built candidate sequence resets
candidates/selected to the "none" sentinels with an empty lookup, ends with
stage `no_candidates`, and returns without a hard failure. -/
theorem C6_no_candidates (env : FindEnv) (st : Sess) (lim : Option Nat)
    (hEn : is_search_enabled env.gate = true)
    (hCat : truthy_catalog env.catalog = true)
    (hIn : ¬(parse_values env.tmdbRaw = [] ∧ parse_values env.titleRaw = []))
    (hEmpty : build_candidates (env.catalog.getD []) (parse_values env.tmdbRaw)
        (parse_values env.titleRaw) (lim.getD DEFAULT_LIMIT) = []) :
    find_candidates env st lim
      = { events := [.setStatus ("searching") ("Running candidate search"), .dispatch,
                     .setSensor SENSOR_DETAILS ("none"),
                     .setStatus ("no_candidates")
                       ("No matches for provided TMDB IDs or title prefixes")],
          sess := { candidate_options := [("none")], selected_label := "none",
                    last_candidates := [] },
          outcome := .ok } := by
  simp [find_candidates, hEn, hCat, hIn, hEmpty]

/-- Witness for the amended C6: a non-empty catalogue with no match. -/
theorem C6_no_candidates_witness :
    find_candidates envNoMatch sess0 none
      = { events := [.setStatus ("searching") ("Running candidate search"), .dispatch,
                     .setSensor SENSOR_DETAILS ("none"),
                     .setStatus ("no_candidates")
                       ("No matches for provided TMDB IDs or title prefixes")],
          sess := { candidate_options := [("none")], selected_label := "none",
                    last_candidates := [] },
          outcome := .ok } :=
  C6_no_candidates envNoMatch sess0 none (by decide) (by decide) (by decide) (by decide)

theorem mem_dropWhile_iff {p : Char → Bool} {c : Char} (hc : p c = false)
    (l : List Char) : c ∈ l.dropWhile p ↔ c ∈ l := by
  induction l with
  | nil => simp
  | cons x r ih =>
    by_cases hx : p x
    · rw [List.dropWhile_cons, if_pos hx]
      constructor
      · exact fun h => List.mem_cons_of_mem _ (ih.mp h)
      · intro h
        rcases List.mem_cons.mp h with h | h
        · subst h
          rw [hx] at hc
          exact absurd hc (by simp)
        · exact ih.mpr h
    · rw [List.dropWhile_cons, if_neg hx]

theorem mem_pyStripL {c : Char} (hc : c.isWhitespace = false) (l : List Char) :
    c ∈ pyStripL l ↔ c ∈ l := by
  rw [pyStripL, List.mem_reverse, mem_dropWhile_iff hc, List.mem_reverse,
    mem_dropWhile_iff hc]

theorem hasChar_pyStrip {c : Char} (hc : c.isWhitespace = false) (s : String) :
    hasChar (pyStrip s) c = hasChar s c := by
  rw [hasChar, hasChar, pyStrip]
  exact decide_eq_decide.mpr (mem_pyStripL hc s.data)

/-- Counterexample to C10 as stated: `_parse_values` does not split every
raw identifier-input string into values — on a bare carriage return
followed by a regular character the underlying `csv.reader` raises
`csv.Error` ("new-line character seen in unquoted field"), which
`_parse_values` does not catch, so no value list is produced although the
input is neither empty nor whitespace-only. -/
theorem C10_counterexample :
    parse_values_res (some ("a\rb")) = none
    ∧ pyStrip ("a\rb") ≠ ""
    ∧ parse_raises (some ("a\rb")) = true := by
  decide

/-- C10 (amended): `_parse_values` yields the empty list for a missing,
empty or whitespace-only input; on every raw string it either CSV-splits
the stripped text — cells collected across rows, double-quote quoting
honoured, each cell stripped, empty cells dropped — using the semicolon
delimiter exactly when the raw string contains a semicolon and no comma
and the comma delimiter otherwise, or, when the reader raises `csv.Error`
(an unquoted carriage return followed by anything but a line feed), it
propagates the raise and yields no value list. -/
theorem C10_parse_values :
    parse_values_res none = some []
    ∧ (∀ raw, parse_values_res (some raw)
        = if pyStrip raw = "" then some []
          else csv_split_values
            (if hasChar raw ';' && !hasChar raw ',' then ';' else ',') (pyStrip raw))
    ∧ (∀ raw, parse_raises (some raw) = true → parse_values_res (some raw) = none) := by
  refine ⟨rfl, ?_, ?_⟩
  · intro raw
    by_cases h0 : raw = ""
    · subst h0
      rfl
    · rw [parse_values_res]
      simp only [if_neg h0]
      by_cases ht : pyStrip raw = ""
      · rw [if_pos ht, if_pos ht]
      · rw [if_neg ht, if_neg ht,
          hasChar_pyStrip (by decide) raw, hasChar_pyStrip (by decide) raw]
  · intro raw h
    rw [parse_raises, Option.isNone_iff_eq_none] at h
    exact h

/-- Witness for the amended C10, applying the raise clause at the raising
input. -/
theorem C10_parse_values_witness :
    parse_values_res (some ("a\rb")) = none :=
  C10_parse_values.2.2 ("a\rb") (by decide)

